import Mathlib

/-
Verification of the KnowledgeBaseMCP document/spreadsheet core.

Shallow embedding of:
  src/xlsx_writer.py   (XlsxWriter: create_workbook, append_to_workbook,
                        _write_list_to_sheet, _append_list_to_sheet,
                        _apply_default_formatting, ...)
  src/extractors.py    (DocumentExtractor: extract_from_file, _extract_xlsx,
                        _extract_pptx, _extract_docx)
  src/docx_writer.py   (DocxWriter: create_document, _add_content,
                        _add_formatted_text)

Modelling conventions:
  * Python str values stored in spreadsheet cells are carried as already
    rendered Lean `String`s (Python's str() is opaque to all the claims).
  * A worksheet is an association list of written cells; a later write
    shadows an earlier one at the same coordinate, matching openpyxl's
    in-place cell mutation.
  * openpyxl's `Worksheet.max_row` reports 1 for a sheet with no cells and
    otherwise the largest row index of any cell; `Sheet.max_row` mirrors
    that (cells exist in this model exactly when they were written).
  * Text processed by the docx writer / extractors is modelled as
    `List Char`, with Python's strip/replace/startswith/split semantics
    reproduced on character lists.
-/

set_option maxHeartbeats 1600000

/-- Characters Python's `str.strip()` removes. -/
def py_space (c : Char) : Bool :=
  c = ' ' || c = '\t' || c = '\n' || c = '\r' || c = '\x0b' || c = '\x0c'

/-- The character list of a string literal. -/
def chars (s : String) : List Char := s.data

/-- Python `str.strip()` on a character list. -/
def pystrip (l : List Char) : List Char :=
  ((l.dropWhile py_space).reverse.dropWhile py_space).reverse

/-- Substring test: does `needle` occur contiguously inside the list? -/
def containsSeq (needle : List Char) : List Char → Bool
  | [] => needle.isEmpty
  | x :: xs => needle.isPrefixOf (x :: xs) || containsSeq needle xs

/- ===================== Spreadsheet writer (src/xlsx_writer.py) ============ -/

/-- A worksheet: the cells written so far, most recent write first.
`(row, column, value)` with 1-based row and column, values already
rendered through Python's str(). -/
structure Sheet where
  cells : List (Nat × Nat × String)
deriving DecidableEq

def Sheet.empty : Sheet := ⟨[]⟩

/-- `worksheet.cell(row=r, column=c, value=v)` with a value assignment. -/
def Sheet.setCell (s : Sheet) (r c : Nat) (v : String) : Sheet :=
  ⟨(r, c, v) :: s.cells⟩

/-- The value currently visible at a coordinate (None for an unwritten cell). -/
def Sheet.getCell (s : Sheet) (r c : Nat) : Option String :=
  (s.cells.find? (fun x => x.1 == r && x.2.1 == c)).map (fun x => x.2.2)

/-- Largest row index holding a written cell; 0 when the sheet is empty. -/
def Sheet.popMax (s : Sheet) : Nat :=
  s.cells.foldr (fun x m => max x.1 m) 0

/-- openpyxl `Worksheet.max_row`: 1 for an empty sheet, else the largest
row index of any cell. -/
def Sheet.max_row (s : Sheet) : Nat :=
  max 1 s.popMax

/-- One element of a Python list passed as sheet data: an inner list/tuple,
an inner dict (ordered key/value pairs), or a scalar. -/
inductive Item where
  | row (vs : List String)
  | map (kvs : List (String × String))
  | scalar (v : String)
deriving DecidableEq

/-- `for col_idx, value in enumerate(item, 1): worksheet.cell(row=r, column=col_idx, value=str(value))`. -/
def writeRowFrom (ws : Sheet) (r c : Nat) : List String → Sheet
  | [] => ws
  | v :: vs => writeRowFrom (ws.setCell r c v) r (c + 1) vs

def writeRow (ws : Sheet) (r : Nat) (vs : List String) : Sheet :=
  writeRowFrom ws r 1 vs

/-- The body of `XlsxWriter._write_list_to_sheet`'s loop for one item at
enumerate index `rowIdx` (1-based).  For a dict at index 1 the code writes
the keys at row 1, bumps its local `row_idx` to 2 and writes the values
there; the bump does not survive into later iterations of the
`enumerate` loop. -/
def writeItemAt (ws : Sheet) (rowIdx : Nat) : Item → Sheet
  | .row vs => writeRow ws rowIdx vs
  | .map kvs =>
      if rowIdx = 1 then
        writeRow (writeRow ws 1 (kvs.map Prod.fst)) 2 (kvs.map Prod.snd)
      else
        writeRow ws rowIdx (kvs.map Prod.snd)
  | .scalar v => ws.setCell rowIdx 1 v

def writeListFrom (ws : Sheet) (rowIdx : Nat) : List Item → Sheet
  | [] => ws
  | it :: rest => writeListFrom (writeItemAt ws rowIdx it) (rowIdx + 1) rest

/-- `XlsxWriter._write_list_to_sheet` on a fresh worksheet. -/
def write_list_to_sheet (data : List Item) : Sheet :=
  writeListFrom Sheet.empty 1 data

/-- `XlsxWriter._write_dict_to_sheet`: key in column 1, value in column 2,
one pair per row from row 1. -/
def writeDictFrom (ws : Sheet) (r : Nat) : List (String × String) → Sheet
  | [] => ws
  | (k, v) :: rest => writeDictFrom ((ws.setCell r 1 k).setCell r 2 v) (r + 1) rest

def write_dict_to_sheet (kvs : List (String × String)) : Sheet :=
  writeDictFrom Sheet.empty 1 kvs

/-- A pandas DataFrame as the writer sees it: the rows produced by
`dataframe_to_rows` (header and index already rendered in). -/
structure Frame where
  rows : List (List String)
deriving DecidableEq

/-- `XlsxWriter._write_dataframe_to_sheet` on a fresh worksheet:
`worksheet.append` places successive rows at rows 1, 2, ... -/
def writeFrameFrom (ws : Sheet) (r : Nat) : List (List String) → Sheet
  | [] => ws
  | vs :: rest => writeFrameFrom (writeRow ws r vs) (r + 1) rest

def write_dataframe_to_sheet (df : Frame) : Sheet :=
  writeFrameFrom Sheet.empty 1 df.rows

/-- The payload for one sheet of `create_workbook`, per the isinstance
dispatch: dict, list, DataFrame, or anything else (written as one string). -/
inductive SheetData where
  | dict (kvs : List (String × String))
  | list (items : List Item)
  | frame (df : Frame)
  | other (v : String)
deriving DecidableEq

/-- The `**kwargs` options of the writer: whether `apply_formatting` was
passed explicitly, and with which value. -/
structure Opts where
  apply_formatting : Option Bool := none
deriving DecidableEq

/-- Does `kwargs.get('apply_formatting', default)` come out true? -/
def Opts.fmtOr (o : Opts) (d : Bool) : Bool :=
  o.apply_formatting.getD d

/-- One sheet of the workbook produced by `create_workbook`, together with
whether `_apply_default_formatting` ran on it. -/
structure SheetOut where
  name : String
  sheet : Sheet
  formatted : Bool
deriving DecidableEq

/-- `XlsxWriter.create_workbook`'s per-sheet dispatch: dict and list writers
default `apply_formatting` to False, the DataFrame writer defaults it to
True, and the fallback string write never formats. -/
def writeSheetData (sd : SheetData) (o : Opts) : Sheet × Bool :=
  match sd with
  | .dict kvs => (write_dict_to_sheet kvs, o.fmtOr false)
  | .list items => (write_list_to_sheet items, o.fmtOr false)
  | .frame df => (write_dataframe_to_sheet df, o.fmtOr true)
  | .other v => (Sheet.empty.setCell 1 1 v, false)

/-- `XlsxWriter.create_workbook`: one fresh sheet per entry, in order. -/
def create_workbook (data : List (String × SheetData)) (o : Opts) : List SheetOut :=
  data.map (fun p => ⟨p.1, (writeSheetData p.2 o).1, (writeSheetData p.2 o).2⟩)

/-- Largest column index holding a written cell; 0 when the sheet is empty. -/
def Sheet.popMaxCol (s : Sheet) : Nat :=
  s.cells.foldr (fun x m => max x.2.1 m) 0

/-- openpyxl `Worksheet.max_column` (1 even for an empty sheet). -/
def Sheet.max_column (s : Sheet) : Nat :=
  max 1 s.popMaxCol

/-- `len(str(cell.value))` for the cell at `(r, c)`: an unwritten cell reads
as None and `str(None)` has length 4. -/
def cellLen (s : Sheet) (r c : Nat) : Nat :=
  match s.getCell r c with
  | some v => v.length
  | none => 4

/-- The `max_length` loop of `_apply_default_formatting` for one column:
the longest rendered value among the cells of rows 1..max_row. -/
def colMaxLen (s : Sheet) (c : Nat) : Nat :=
  ((List.range s.max_row).map (fun i => cellLen s (i + 1) c)).foldl max 0

/-- What `XlsxWriter._apply_default_formatting` does to a worksheet,
recorded observationally: which row-1 cells get the bold/white-on-blue
header style, the width assigned to each column, and which cells get the
thin border. -/
structure Formatting where
  row1Styled : Nat → Bool
  width : Nat → Option Nat
  bordered : Nat → Nat → Bool

def apply_default_formatting (s : Sheet) : Formatting where
  row1Styled c := 1 ≤ c && c ≤ s.max_column
  width c := if 1 ≤ c ∧ c ≤ s.max_column then some (min (colMaxLen s c + 2) 50) else none
  bordered r c :=
    1 ≤ r && r ≤ s.max_row && 1 ≤ c && c ≤ s.max_column && (s.getCell r c).isSome

/- ------------------- append_to_workbook ------------------- -/

/-- A workbook: its sheets in creation order. -/
structure Workbook where
  sheets : List (String × Sheet)
deriving DecidableEq

def Workbook.emptyWb : Workbook := ⟨[]⟩

def Workbook.getSheet (wb : Workbook) (n : String) : Option Sheet :=
  (wb.sheets.find? (fun p => p.1 == n)).map Prod.snd

def Workbook.setSheet (wb : Workbook) (n : String) (s : Sheet) : Workbook :=
  ⟨wb.sheets.map (fun p => if p.1 == n then (n, s) else p)⟩

def Workbook.addSheet (wb : Workbook) (n : String) (s : Sheet) : Workbook :=
  ⟨wb.sheets ++ [(n, s)]⟩

/-- The data argument of `append_to_workbook`: list, dict, DataFrame or
scalar fallback. -/
inductive AppendData where
  | list (items : List Item)
  | dict (kvs : List (String × String))
  | frame (df : Frame)
  | scalar (v : String)
deriving DecidableEq

/-- One iteration of `_append_list_to_sheet`'s loop: an inner dict writes
only its values (no header logic on the append path). -/
def appendItem (ws : Sheet) (r : Nat) : Item → Sheet
  | .row vs => writeRow ws r vs
  | .map kvs => writeRow ws r (kvs.map Prod.snd)
  | .scalar v => ws.setCell r 1 v

/-- `XlsxWriter._append_list_to_sheet`: items at rows start_row, start_row+1, ... -/
def appendListFrom (ws : Sheet) (r : Nat) : List Item → Sheet
  | [] => ws
  | it :: rest => appendListFrom (appendItem ws r it) (r + 1) rest

/-- `XlsxWriter._append_dict_to_sheet`. -/
def appendDictFrom (ws : Sheet) (r : Nat) : List (String × String) → Sheet
  | [] => ws
  | (k, v) :: rest => appendDictFrom ((ws.setCell r 1 k).setCell r 2 v) (r + 1) rest

/-- `XlsxWriter._append_dataframe_to_sheet` (header=False rows). -/
def appendFrameFrom (ws : Sheet) (r : Nat) : List (List String) → Sheet
  | [] => ws
  | vs :: rest => appendFrameFrom (writeRow ws r vs) (r + 1) rest

/-- The `data` dispatch of `append_to_workbook` starting at `startRow`. -/
def appendData (ws : Sheet) (startRow : Nat) : AppendData → Sheet
  | .list items => appendListFrom ws startRow items
  | .dict kvs => appendDictFrom ws startRow kvs
  | .frame df => appendFrameFrom ws startRow df.rows
  | .scalar v => ws.setCell startRow 1 v

/-- The `next_row` computed by `append_to_workbook` (lines 130-137):
`ws.max_row + 1` for a pre-existing sheet, 1 for a newly created one.
`file` is the loaded workbook, or none when the path did not exist. -/
def appendCursor (file : Option Workbook) (sheetName : String) : Nat :=
  match (file.getD Workbook.emptyWb).getSheet sheetName with
  | some ws => ws.max_row + 1
  | none => 1

/-- `XlsxWriter.append_to_workbook`: load or create the workbook, get or
create the sheet, write `data` from `next_row`, save. -/
def append_to_workbook (file : Option Workbook) (sheetName : String)
    (data : AppendData) : Workbook :=
  let wb := file.getD Workbook.emptyWb
  match wb.getSheet sheetName with
  | some ws => wb.setSheet sheetName (appendData ws (ws.max_row + 1) data)
  | none => wb.addSheet sheetName (appendData Sheet.empty 1 data)

/- ------------- lemmas about the sheet model ------------- -/

/-- What a single input item is expected to put at column `c` of its own
output row: inner lists column-by-column, inner dicts their values
column-by-column, scalars into column A. -/
def Item.cellAt : Item → Nat → Option String
  | .row vs, c => if 1 ≤ c then vs.get? (c - 1) else none
  | .map kvs, c => if 1 ≤ c then (kvs.map Prod.snd).get? (c - 1) else none
  | .scalar v, c => if c = 1 then some v else none

/-- Does this item write at least one cell on the append path? -/
def Item.writesCell : Item → Bool
  | .row vs => !vs.isEmpty
  | .map kvs => !kvs.isEmpty
  | .scalar _ => true

/-- Does the final item of the list write at least one cell? -/
def lastWrites : List Item → Bool
  | [] => false
  | [it] => it.writesCell
  | _ :: it :: rest => lastWrites (it :: rest)

theorem getCell_setCell (w : Sheet) (r c r' c' : Nat) (v : String) :
    (w.setCell r c v).getCell r' c' =
      if r' = r ∧ c' = c then some v else w.getCell r' c' := by
  simp only [Sheet.setCell, Sheet.getCell, List.find?]
  rcases Decidable.em (r' = r ∧ c' = c) with h | h
  · obtain ⟨rfl, rfl⟩ := h
    simp
  · rw [if_neg h]
    have hb : (r == r' && c == c') = false := by
      rw [Bool.and_eq_false_iff]
      by_cases hr : r = r'
      · subst hr
        right
        simp only [beq_eq_false_iff_ne, ne_eq]
        intro hc
        exact h ⟨rfl, hc.symm⟩
      · left
        simp only [beq_eq_false_iff_ne, ne_eq]
        exact fun hr' => hr hr'
    simp [hb]

theorem getCell_writeRowFrom_ne (w : Sheet) (r c r' c' : Nat) (vs : List String)
    (h : r' ≠ r) :
    (writeRowFrom w r c vs).getCell r' c' = w.getCell r' c' := by
  induction vs generalizing w c with
  | nil => rfl
  | cons v vs ih =>
    rw [writeRowFrom, ih, getCell_setCell, if_neg]
    rintro ⟨h1, -⟩
    exact h h1

theorem getCell_writeRowFrom_out (w : Sheet) (r c c' : Nat) (vs : List String)
    (h : c' < c ∨ c + vs.length ≤ c') :
    (writeRowFrom w r c vs).getCell r c' = w.getCell r c' := by
  induction vs generalizing w c with
  | nil => rfl
  | cons v vs ih =>
    have hlen : c' < c + 1 ∨ (c + 1) + vs.length ≤ c' := by
      rcases h with h | h
      · omega
      · simp only [List.length_cons] at h
        omega
    have hne : ¬ (r = r ∧ c' = c) := by
      rintro ⟨-, rfl⟩
      rcases h with h | h
      · omega
      · simp only [List.length_cons] at h
        omega
    rw [writeRowFrom, ih (w.setCell r c v) (c + 1) hlen, getCell_setCell, if_neg hne]

theorem getCell_writeRowFrom_in (w : Sheet) (r c c' : Nat) (vs : List String)
    (h1 : c ≤ c') (h2 : c' < c + vs.length) :
    (writeRowFrom w r c vs).getCell r c' = vs.get? (c' - c) := by
  induction vs generalizing w c with
  | nil =>
    simp only [List.length_nil] at h2
    omega
  | cons v vs ih =>
    rw [writeRowFrom]
    rcases Decidable.em (c' = c) with hc | hc
    · subst hc
      rw [getCell_writeRowFrom_out _ _ _ _ _ (Or.inl (by omega)),
        getCell_setCell, if_pos ⟨rfl, rfl⟩]
      simp
    · have h2' : c' < (c + 1) + vs.length := by
        simp only [List.length_cons] at h2
        omega
      rw [ih (w.setCell r c v) (c + 1) (by omega) h2']
      have hs : c' - c = (c' - (c + 1)) + 1 := by omega
      rw [hs]
      rfl

theorem getCell_appendItem_ne (w : Sheet) (r r' c' : Nat) (it : Item)
    (h : r' ≠ r) :
    (appendItem w r it).getCell r' c' = w.getCell r' c' := by
  cases it with
  | row vs => exact getCell_writeRowFrom_ne w r 1 r' c' vs h
  | map kvs => exact getCell_writeRowFrom_ne w r 1 r' c' (kvs.map Prod.snd) h
  | scalar v =>
    rw [appendItem, getCell_setCell, if_neg]
    rintro ⟨h1, -⟩
    exact h h1

theorem getCell_appendItem_eq (w : Sheet) (r c' : Nat) (it : Item) :
    (appendItem w r it).getCell r c' =
      match it.cellAt c' with
      | some v => some v
      | none => w.getCell r c' := by
  cases it with
  | row vs =>
    rw [appendItem, Item.cellAt]
    rcases Decidable.em (1 ≤ c' ∧ c' < 1 + vs.length) with h | h
    · rw [writeRow, getCell_writeRowFrom_in w r 1 c' vs h.1 h.2, if_pos h.1]
      have hlt : c' - 1 < vs.length := by omega
      rcases List.get?_eq_get hlt with h2
      rw [h2]
    · rw [writeRow, getCell_writeRowFrom_out w r 1 c' vs (by omega)]
      rcases Decidable.em (1 ≤ c') with h1 | h1
      · rw [if_pos h1]
        have : vs.length ≤ c' - 1 := by omega
        rw [List.get?_eq_none.mpr this]
      · rw [if_neg h1]
  | map kvs =>
    rw [appendItem, Item.cellAt]
    rcases Decidable.em (1 ≤ c' ∧ c' < 1 + (kvs.map Prod.snd).length) with h | h
    · rw [writeRow, getCell_writeRowFrom_in w r 1 c' _ h.1 h.2, if_pos h.1]
      have hlt : c' - 1 < (kvs.map Prod.snd).length := by omega
      rcases List.get?_eq_get hlt with h2
      rw [h2]
    · rw [writeRow, getCell_writeRowFrom_out w r 1 c' _ (by omega)]
      rcases Decidable.em (1 ≤ c') with h1 | h1
      · rw [if_pos h1]
        have : (kvs.map Prod.snd).length ≤ c' - 1 := by omega
        rw [List.get?_eq_none.mpr this]
      · rw [if_neg h1]
  | scalar v =>
    rw [appendItem, Item.cellAt, getCell_setCell]
    rcases Decidable.em (c' = 1) with h | h
    · rw [if_pos ⟨rfl, h⟩, if_pos h]
    · rw [if_neg (by rintro ⟨-, h1⟩; exact h h1), if_neg h]

theorem getCell_appendListFrom_below (w : Sheet) (r r' c' : Nat) (items : List Item)
    (h : r' < r) :
    (appendListFrom w r items).getCell r' c' = w.getCell r' c' := by
  induction items generalizing w r with
  | nil => rfl
  | cons it rest ih =>
    rw [appendListFrom, ih (appendItem w r it) (r + 1) (by omega),
      getCell_appendItem_ne w r r' c' it (by omega)]

theorem getCell_appendListFrom_above (w : Sheet) (r r' c' : Nat) (items : List Item)
    (h : r + items.length ≤ r') :
    (appendListFrom w r items).getCell r' c' = w.getCell r' c' := by
  induction items generalizing w r with
  | nil => rfl
  | cons it rest ih =>
    simp only [List.length_cons] at h
    rw [appendListFrom, ih (appendItem w r it) (r + 1) (by omega),
      getCell_appendItem_ne w r r' c' it (by omega)]

theorem getCell_appendListFrom_at (w : Sheet) (r c' i : Nat) (items : List Item)
    (it : Item) (h : items.get? i = some it) :
    (appendListFrom w r items).getCell (r + i) c' =
      match it.cellAt c' with
      | some v => some v
      | none => w.getCell (r + i) c' := by
  induction items generalizing w r i with
  | nil => simp at h
  | cons it0 rest ih =>
    cases i with
    | zero =>
      simp only [List.get?] at h
      cases h
      rw [appendListFrom,
        getCell_appendListFrom_below (appendItem w r it) (r + 1) (r + 0) c' rest (by omega)]
      exact getCell_appendItem_eq w (r + 0) c' it
    | succ j =>
      simp only [List.get?] at h
      rw [appendListFrom]
      have step := ih (appendItem w r it0) (r + 1) j h
      have harr : r + 1 + j = r + (j + 1) := by omega
      rw [harr] at step
      rw [step, getCell_appendItem_ne w r (r + (j + 1)) c' it0 (by omega)]

theorem popMax_setCell (w : Sheet) (r c : Nat) (v : String) :
    (w.setCell r c v).popMax = max r w.popMax := rfl

theorem popMax_writeRowFrom (w : Sheet) (r c : Nat) (vs : List String) :
    (writeRowFrom w r c vs).popMax = if vs.isEmpty then w.popMax else max r w.popMax := by
  induction vs generalizing w c with
  | nil => rfl
  | cons v vs ih =>
    rw [writeRowFrom, ih]
    cases vs with
    | nil => simp [popMax_setCell]
    | cons v2 vs2 =>
      simp only [List.isEmpty_cons, popMax_setCell, if_neg Bool.false_ne_true]
      omega

theorem popMax_appendItem (w : Sheet) (r : Nat) (it : Item) :
    (appendItem w r it).popMax = if it.writesCell then max r w.popMax else w.popMax := by
  cases it with
  | row vs =>
    rw [appendItem, writeRow, popMax_writeRowFrom, Item.writesCell]
    cases vs <;> simp
  | map kvs =>
    rw [appendItem, writeRow, popMax_writeRowFrom, Item.writesCell]
    cases kvs <;> simp
  | scalar v => simp [appendItem, popMax_setCell, Item.writesCell]

theorem popMax_appendListFrom_le (w : Sheet) (r : Nat) (items : List Item) :
    (appendListFrom w r items).popMax ≤ max w.popMax (r + items.length - 1) ∧
    w.popMax ≤ (appendListFrom w r items).popMax := by
  induction items generalizing w r with
  | nil => simp [appendListFrom]
  | cons it rest ih =>
    rw [appendListFrom]
    have step := ih (appendItem w r it) (r + 1)
    rw [popMax_appendItem] at step
    simp only [List.length_cons]
    constructor
    · rcases step with ⟨h1, -⟩
      rcases Decidable.em (it.writesCell = true) with hw | hw
      · rw [if_pos hw] at h1
        omega
      · rw [if_neg hw] at h1
        omega
    · rcases step with ⟨-, h2⟩
      rcases Decidable.em (it.writesCell = true) with hw | hw
      · rw [if_pos hw] at h2
        omega
      · rw [if_neg hw] at h2
        omega

theorem popMax_appendListFrom_last (w : Sheet) (r : Nat) (items : List Item)
    (h : lastWrites items = true) (hr : 1 ≤ r) :
    (appendListFrom w r items).popMax = max w.popMax (r + items.length - 1) := by
  induction items generalizing w r with
  | nil => simp [lastWrites] at h
  | cons it rest ih =>
    cases rest with
    | nil =>
      rw [lastWrites] at h
      rw [appendListFrom, appendListFrom, popMax_appendItem, if_pos h]
      simp only [List.length_cons, List.length_nil]
      omega
    | cons it2 rest2 =>
      rw [lastWrites] at h
      rw [appendListFrom, ih (appendItem w r it) (r + 1) h (by omega),
        popMax_appendItem]
      simp only [List.length_cons]
      rcases Decidable.em (it.writesCell = true) with hw | hw
      · rw [if_pos hw]
        omega
      · rw [if_neg hw]
        omega

theorem getCell_appendDictFrom_below (w : Sheet) (r r' c' : Nat)
    (kvs : List (String × String)) (h : r' < r) :
    (appendDictFrom w r kvs).getCell r' c' = w.getCell r' c' := by
  induction kvs generalizing w r with
  | nil => rfl
  | cons kv rest ih =>
    rw [appendDictFrom, ih _ (r + 1) (by omega), getCell_setCell, if_neg, getCell_setCell, if_neg]
    · rintro ⟨h1, -⟩
      omega
    · rintro ⟨h1, -⟩
      omega

theorem getCell_appendFrameFrom_below (w : Sheet) (r r' c' : Nat)
    (rows : List (List String)) (h : r' < r) :
    (appendFrameFrom w r rows).getCell r' c' = w.getCell r' c' := by
  induction rows generalizing w r with
  | nil => rfl
  | cons vs rest ih =>
    rw [appendFrameFrom, ih _ (r + 1) (by omega), writeRow,
      getCell_writeRowFrom_ne _ _ _ _ _ _ (by omega)]
/-- Every variant of `append_to_workbook`'s data dispatch writes only at
rows ≥ the start row. -/
theorem getCell_appendData_below (w : Sheet) (startRow r' c' : Nat) (d : AppendData)
    (h : r' < startRow) :
    (appendData w startRow d).getCell r' c' = w.getCell r' c' := by
  cases d with
  | list items => exact getCell_appendListFrom_below w startRow r' c' items h
  | dict kvs => exact getCell_appendDictFrom_below w startRow r' c' kvs h
  | frame df => exact getCell_appendFrameFrom_below w startRow r' c' df.rows h
  | scalar v =>
    rw [appendData, getCell_setCell, if_neg]
    rintro ⟨h1, -⟩
    omega

theorem getSheet_addSheet (wb : Workbook) (n : String) (s : Sheet)
    (h : wb.getSheet n = none) :
    (wb.addSheet n s).getSheet n = some s := by
  rcases wb with ⟨sheets⟩
  simp only [Workbook.getSheet] at h
  rcases Option.map_eq_none'.mp h with hn
  show Option.map Prod.snd ((sheets ++ [(n, s)]).find? (fun p => p.1 == n)) = some s
  rw [List.find?_append, hn]
  simp [List.find?]

theorem getSheet_setSheet (wb : Workbook) (n : String) (s ws : Sheet)
    (h : wb.getSheet n = some ws) :
    (wb.setSheet n s).getSheet n = some s := by
  rcases wb with ⟨sheets⟩
  simp only [Workbook.getSheet, Workbook.setSheet] at h ⊢
  induction sheets with
  | nil => simp [List.find?] at h
  | cons p rest ih =>
    cases hpn : (p.1 == n) with
    | true =>
      simp only [List.map_cons, hpn, if_pos rfl]
      simp [List.find?]
    | false =>
      rw [List.find?, hpn] at h
      have hp2 : (if (p.1 == n) = true then (n, s) else p) = p := by
        rw [hpn]
        simp
      rw [List.map_cons, hp2, List.find?, hpn]
      exact ih h

/- ===================== Claims C1 - C4 ===================== -/

/-- Claim C1 (code-bug evaluation): on the RowList `[{"a": "x"}, {"a": "y"}]`,
`_write_list_to_sheet` writes the header `a` at row 1, but the second map's
values land on row 2 — the same row the first map's values were written to —
so the first item's value row is overwritten and row 3 stays empty, instead
of one output row per input row with no overwrite. -/
theorem c1_second_map_overwrites_first_values_row :
    (write_list_to_sheet [Item.map [("a", "x")], Item.map [("a", "y")]]).getCell 1 1
        = some "a" ∧
    (write_list_to_sheet [Item.map [("a", "x")], Item.map [("a", "y")]]).getCell 2 1
        = some "y" ∧
    (write_list_to_sheet [Item.map [("a", "x")], Item.map [("a", "y")]]).getCell 3 1
        = none := by
  decide

/-- Claim C2 (counterexample): a pre-existing sheet with no populated rows
yields append cursor 2, not 1 — openpyxl reports max_row = 1 on an empty
sheet, so next_row = 1 + 1. -/
theorem c2_empty_preexisting_sheet_gets_cursor_two :
    (Workbook.mk [("S", Sheet.empty)]).getSheet "S" = some Sheet.empty ∧
    Sheet.empty.popMax = 0 ∧
    appendCursor (some (Workbook.mk [("S", Sheet.empty)])) "S" = 2 := by
  decide

/-- Claim C2 (amended): for every append_to_workbook call the cursor equals
max(1, existing max populated row) + 1 when the target sheet pre-exists —
in particular 2, not 1, when that sheet has no populated rows — and equals 1
when the sheet is newly created; no cell at a row strictly below the cursor
is written by the append. -/
theorem c2_append_cursor_amended (file : Option Workbook) (name : String)
    (d : AppendData) :
    (∀ ws, (file.getD Workbook.emptyWb).getSheet name = some ws →
        appendCursor file name = max 1 ws.popMax + 1) ∧
    ((file.getD Workbook.emptyWb).getSheet name = none →
        appendCursor file name = 1) ∧
    (∀ r c, r < appendCursor file name →
        (Option.getD ((append_to_workbook file name d).getSheet name) Sheet.empty).getCell r c
          = (Option.getD ((file.getD Workbook.emptyWb).getSheet name) Sheet.empty).getCell r c) := by
  refine ⟨?_, ?_, ?_⟩
  · intro ws h
    rw [appendCursor, h]
    rfl
  · intro h
    rw [appendCursor, h]
  · intro r c hr
    cases hs : (file.getD Workbook.emptyWb).getSheet name with
    | some ws =>
      rw [appendCursor, hs] at hr
      rw [append_to_workbook]
      simp only [hs]
      rw [getSheet_setSheet _ _ _ _ hs]
      simp only [Option.getD_some]
      exact getCell_appendData_below ws (ws.max_row + 1) r c d hr
    | none =>
      rw [appendCursor, hs] at hr
      rw [append_to_workbook]
      simp only [hs]
      rw [getSheet_addSheet _ _ _ hs]
      simp only [Option.getD_some, Option.getD_none]
      exact getCell_appendData_below Sheet.empty 1 r c d hr

/-- Witness for the amended C2 theorem at a concrete workbook: the sheet
"S" holds one cell in row 1, the cursor is 2, and the appended sheet still
shows the old value at row 1. -/
theorem c2_append_cursor_amended_witness :
    appendCursor (some (Workbook.mk [("S", Sheet.empty.setCell 1 1 "v")])) "S" = 2 ∧
    (Option.getD ((append_to_workbook (some (Workbook.mk [("S", Sheet.empty.setCell 1 1 "v")]))
        "S" (AppendData.list [Item.row ["w"]])).getSheet "S") Sheet.empty).getCell 1 1
      = some "v" := by
  constructor
  · exact ((c2_append_cursor_amended (some (Workbook.mk [("S", Sheet.empty.setCell 1 1 "v")]))
      "S" (AppendData.list [Item.row ["w"]])).1 (Sheet.empty.setCell 1 1 "v")
      (by decide)).trans (by decide)
  · exact ((c2_append_cursor_amended (some (Workbook.mk [("S", Sheet.empty.setCell 1 1 "v")]))
      "S" (AppendData.list [Item.row ["w"]])).2.2 1 1 (by decide)).trans (by decide)

/-- The sheet named `name` after appending R1 to a fresh file and then R2 to
the same sheet (the C3 scenario: first call creates the sheet, second call
appends below the existing content). -/
def twoAppends (name : String) (R1 R2 : List Item) : Sheet :=
  Option.getD ((append_to_workbook
      (some (append_to_workbook none name (AppendData.list R1)))
      name (AppendData.list R2)).getSheet name) Sheet.empty

/-- Claim C3 (counterexample): for R1 = [] and R2 = [["x"]] against a fresh
sheet, the second append starts at row 2 (openpyxl max_row of the empty
saved sheet is 1), so row 1 stays empty and R2's first row is NOT the first
data row of the sheet. -/
theorem c3_empty_r1_leaves_row_one_empty :
    (twoAppends "S" [] [Item.row ["x"]]).getCell 1 1 = none ∧
    (twoAppends "S" [] [Item.row ["x"]]).getCell 2 1 = some "x" := by
  decide

/-- Claim C3 (amended): against a fresh header-less sheet, appending R1 and
then R2 leaves R1's rows at 1..len(R1) and R2's rows immediately after,
with no gap or overwrite, provided the final row of R1 populates at least
one cell (in particular R1 is nonempty) — otherwise the sheet's max_row
falls short of len(R1) and the second append starts too high. -/
theorem c3_two_appends_amended (name : String) (R1 R2 : List Item)
    (h : lastWrites R1 = true) :
    (∀ i it c, R1.get? i = some it →
        (twoAppends name R1 R2).getCell (i + 1) c = it.cellAt c) ∧
    (∀ j it c, R2.get? j = some it →
        (twoAppends name R1 R2).getCell (R1.length + j + 1) c = it.cellAt c) := by
  have hlen : 1 ≤ R1.length := by
    cases R1 with
    | nil => simp [lastWrites] at h
    | cons a l => simp
  have hwb1 : append_to_workbook none name (AppendData.list R1)
      = Workbook.emptyWb.addSheet name (appendListFrom Sheet.empty 1 R1) := rfl
  have hget1 : (Workbook.emptyWb.addSheet name (appendListFrom Sheet.empty 1 R1)).getSheet name
      = some (appendListFrom Sheet.empty 1 R1) :=
    getSheet_addSheet _ _ _ rfl
  have hpop : (appendListFrom Sheet.empty 1 R1).popMax = R1.length := by
    rw [popMax_appendListFrom_last Sheet.empty 1 R1 h (by omega)]
    show max 0 (1 + R1.length - 1) = R1.length
    omega
  have hmax : (appendListFrom Sheet.empty 1 R1).max_row = R1.length := by
    rw [Sheet.max_row, hpop]
    omega
  have hs2 : twoAppends name R1 R2
      = appendListFrom (appendListFrom Sheet.empty 1 R1) (R1.length + 1) R2 := by
    rw [twoAppends, hwb1, append_to_workbook]
    simp only [Option.getD_some, hget1]
    rw [getSheet_setSheet _ _ _ _ hget1, Option.getD_some, hmax]
    rfl
  constructor
  · intro i it c hi
    have hilt : i < R1.length := by
      by_contra hge
      rw [List.get?_eq_none.mpr (by omega)] at hi
      cases hi
    rw [hs2, getCell_appendListFrom_below _ _ _ _ _ (by omega)]
    have hat := getCell_appendListFrom_at Sheet.empty 1 c i R1 it hi
    rw [Nat.add_comm 1 i] at hat
    rw [hat]
    cases hcell : it.cellAt c with
    | some v => simp [hcell]
    | none => simp [hcell, Sheet.getCell, Sheet.empty, List.find?]
  · intro j it c hj
    rw [hs2]
    have hat := getCell_appendListFrom_at (appendListFrom Sheet.empty 1 R1)
      (R1.length + 1) c j R2 it hj
    have hrow : R1.length + j + 1 = R1.length + 1 + j := by omega
    rw [hrow, hat]
    cases hcell : it.cellAt c with
    | some v => simp [hcell]
    | none =>
      simp only [hcell]
      rw [getCell_appendListFrom_above Sheet.empty 1 _ c R1 (by omega)]
      rfl

/-- Witness for the amended C3 theorem: appending `[["a"]]` then `[["b"]]`
to a fresh sheet "S" puts "a" at row 1 and "b" at row 2. -/
theorem c3_two_appends_amended_witness :
    (twoAppends "S" [Item.row ["a"]] [Item.row ["b"]]).getCell 1 1 = some "a" ∧
    (twoAppends "S" [Item.row ["a"]] [Item.row ["b"]]).getCell 2 1 = some "b" := by
  constructor
  · exact ((c3_two_appends_amended "S" [Item.row ["a"]] [Item.row ["b"]] (by decide)).1
      0 (Item.row ["a"]) 1 (by decide)).trans (by decide)
  · exact ((c3_two_appends_amended "S" [Item.row ["a"]] [Item.row ["b"]] (by decide)).2
      0 (Item.row ["b"]) 1 (by decide)).trans (by decide)

/-- Claim C4 (counterexample): create_workbook without an explicit
apply_formatting option leaves a RowList sheet unformatted — the list
writer reads `kwargs.get('apply_formatting', False)`. -/
theorem c4_rowlist_not_formatted_by_default :
    (create_workbook [("S", SheetData.list [Item.row ["x"]])] ⟨none⟩).map SheetOut.formatted
      = [false] := by
  decide

/-- Claim C4 (amended): without an explicit apply_formatting option,
create_workbook formats exactly the DataFrame (Table) sheets — ScalarMap
and RowList sheets stay unformatted.  Whenever _apply_default_formatting
does run it styles every row-1 cell bold/white-on-blue, sets each in-range
column's width to min(longest rendered value length + 2, 50), and borders
exactly the populated cells of the used range. -/
theorem c4_default_formatting_amended (data : List (String × SheetData))
    (s : Sheet) (r c : Nat) :
    ((create_workbook data ⟨none⟩).map SheetOut.formatted =
      data.map (fun p => match p.2 with
        | SheetData.frame _ => true
        | _ => false)) ∧
    (1 ≤ c → c ≤ s.max_column →
      (apply_default_formatting s).width c = some (min (colMaxLen s c + 2) 50)) ∧
    ((apply_default_formatting s).bordered r c = true ↔
      (1 ≤ r ∧ r ≤ s.max_row ∧ 1 ≤ c ∧ c ≤ s.max_column ∧ (s.getCell r c).isSome = true)) ∧
    ((apply_default_formatting s).row1Styled c = true ↔ (1 ≤ c ∧ c ≤ s.max_column)) := by
  refine ⟨?_, ?_, ?_, ?_⟩
  · induction data with
    | nil => rfl
    | cons p rest ih =>
      rcases p with ⟨nm, sd⟩
      cases sd <;>
        simp only [create_workbook, List.map_cons, List.map_map] at ih ⊢ <;>
        rw [List.cons.injEq] <;>
        exact ⟨rfl, ih⟩
  · intro h1 h2
    rw [apply_default_formatting]
    simp only
    rw [if_pos ⟨h1, h2⟩]
  · rw [apply_default_formatting]
    simp only [Bool.and_eq_true, decide_eq_true_eq]
    tauto
  · rw [apply_default_formatting]
    simp only [Bool.and_eq_true, decide_eq_true_eq]

/-- Witness for the amended C4 theorem: a one-dict workbook comes out
unformatted, and on a sheet whose only cell is "hi" at A1 the computed
width of column 1 is min(2 + 2, 50) = 4. -/
theorem c4_default_formatting_amended_witness :
    ((create_workbook [("A", SheetData.dict [("k", "v")])] ⟨none⟩).map SheetOut.formatted
        = [false]) ∧
    (apply_default_formatting (Sheet.empty.setCell 1 1 "hi")).width 1 = some 4 := by
  constructor
  · exact ((c4_default_formatting_amended [("A", SheetData.dict [("k", "v")])]
      Sheet.empty 1 1).1).trans (by decide)
  · exact ((c4_default_formatting_amended [] (Sheet.empty.setCell 1 1 "hi") 1 1).2.1
      (by decide) (by decide)).trans (by decide)

/- ------------- filesystem behaviour of the four writer operations ------------- -/

/-- A minimal filesystem: existing directories, and saved workbook files
keyed by (directory, filename). -/
structure FileSys where
  dirs : List String
  files : List ((String × String) × Workbook)
deriving DecidableEq

def FileSys.lookupFile (fs : FileSys) (d f : String) : Option Workbook :=
  (fs.files.find? (fun e => e.1.1 == d && e.1.2 == f)).map (fun e => e.2)

/-- `Path(file_path).parent.mkdir(parents=True, exist_ok=True)`. -/
def mkdirParents (fs : FileSys) (d : String) : FileSys :=
  if fs.dirs.contains d then fs else ⟨d :: fs.dirs, fs.files⟩

/-- `wb.save(file_path)`: raises FileNotFoundError when the parent
directory does not exist. -/
def saveWorkbook (fs : FileSys) (d f : String) (wb : Workbook) : Except String FileSys :=
  if fs.dirs.contains d then Except.ok ⟨fs.dirs, ((d, f), wb) :: fs.files⟩
  else Except.error "No such file or directory"

def pathStr (d f : String) : String := d ++ "/" ++ f

/-- `XlsxWriter.create_workbook` seen at the filesystem level: mkdir the
parent first, then build and save. -/
def create_workbook_fs (data : List (String × SheetData)) (o : Opts)
    (fs : FileSys) (d f : String) : FileSys × String :=
  let fs1 := mkdirParents fs d
  let wb : Workbook := ⟨(create_workbook data o).map (fun so => (so.name, so.sheet))⟩
  match saveWorkbook fs1 d f wb with
  | .ok fs2 => (fs2, "XLSX workbook created successfully: " ++ pathStr d f)
  | .error e => (fs1, "Error creating XLSX workbook: " ++ e)

/-- `XlsxWriter.create_dataframe_workbook` at the filesystem level. -/
def create_dataframe_workbook_fs (dfs : List (String × Frame)) (fs : FileSys)
    (d f : String) : FileSys × String :=
  let fs1 := mkdirParents fs d
  let wb : Workbook := ⟨dfs.map (fun p => (p.1, write_dataframe_to_sheet p.2))⟩
  match saveWorkbook fs1 d f wb with
  | .ok fs2 => (fs2, "DataFrame workbook created successfully: " ++ pathStr d f)
  | .error e => (fs1, "Error creating DataFrame workbook: " ++ e)

/-- One section of `report_data['data']`, per `create_report_workbook`'s
per-section dispatch: a dict containing the key `'dataframe'` (whose value
is the DataFrame to write), a list, a plain dict, or any other (scalar)
value.  There is no string fallback on this path: a scalar section is
handed to `_write_dict_to_sheet`, whose `data.items()` call raises. -/
inductive SectionData where
  | frameDict (df : Frame)
  | list (items : List Item)
  | dict (kvs : List (String × String))
  | scalar (v : String)
deriving DecidableEq

/-- The per-section dispatch of `create_report_workbook`:
`isinstance(section_data, dict) and 'dataframe' in section_data` → the
DataFrame writer on `section_data['dataframe']`; `isinstance(list)` → the
list writer; else `_write_dict_to_sheet`, which raises AttributeError on a
payload with no `.items()` (the message shown is the one a str payload
produces). -/
def writeSection : SectionData → Except String Sheet
  | .frameDict df => .ok (write_dataframe_to_sheet df)
  | .list items => .ok (write_list_to_sheet items)
  | .dict kvs => .ok (write_dict_to_sheet kvs)
  | .scalar _ => .error "'str' object has no attribute 'items'"

/-- The report structure consumed by `create_report_workbook`. -/
structure Report where
  title : String
  description : String
  data : List (String × SectionData)
deriving DecidableEq

/-- The `for section_name, section_data in data_sections.items()` loop:
sections build in order and the first section that raises aborts the whole
build (later sections are not written and nothing is saved). -/
def buildSections : List (String × SectionData) → Except String (List (String × Sheet))
  | [] => .ok []
  | (n, sd) :: rest =>
    match writeSection sd with
    | .error e => .error e
    | .ok s =>
      match buildSections rest with
      | .error e => .error e
      | .ok ss => .ok ((n, s) :: ss)

/-- The sheets of a report workbook: the Summary sheet (title, generation
timestamp, description down column A) then one dispatched sheet per data
section — or the exception raised by the first failing section. -/
def create_report_sheets (rep : Report) (now : String) :
    Except String (List (String × Sheet)) :=
  match buildSections rep.data with
  | .error e => .error e
  | .ok ss => .ok
    (("Summary",
      ((Sheet.empty.setCell 1 1 rep.title).setCell 2 1 ("Generated: " ++ now)).setCell
        3 1 rep.description) :: ss)

/-- `XlsxWriter.create_report_workbook` at the filesystem level: mkdir the
parent, build the sheets (a raising section is caught by the operation's
try/except before any save, yielding the
`Error creating report workbook: <message>` text), then save. -/
def create_report_workbook_fs (rep : Report) (now : String) (fs : FileSys)
    (d f : String) : FileSys × String :=
  let fs1 := mkdirParents fs d
  match create_report_sheets rep now with
  | .error e => (fs1, "Error creating report workbook: " ++ e)
  | .ok sheets =>
    match saveWorkbook fs1 d f ⟨sheets⟩ with
    | .ok fs2 => (fs2, "Report workbook created successfully: " ++ pathStr d f)
    | .error e => (fs1, "Error creating report workbook: " ++ e)

/-- `XlsxWriter.append_to_workbook` at the filesystem level: note there is
no mkdir call before the save. -/
def append_to_workbook_fs (fs : FileSys) (d f : String) (sheetName : String)
    (data : AppendData) : FileSys × String :=
  let wb := append_to_workbook (fs.lookupFile d f) sheetName data
  match saveWorkbook fs d f wb with
  | .ok fs2 => (fs2, "Data appended to " ++ pathStr d f ++ ", sheet '" ++ sheetName ++ "'")
  | .error e => (fs, "Error appending to workbook: " ++ e)

/-- Claim C10: the three create operations mkdir the destination's parent
directory first, so when that directory does not exist yet they still
succeed and produce the file — for create_report_workbook whenever its
sections build without raising, while a raising section (e.g. a scalar)
yields the `Error creating report workbook: <message>` text and no file;
append_to_workbook performs no mkdir, so in the same situation its save
fails and it returns the `Error appending to workbook: <message>` text
without producing a file. -/
theorem c10_creators_mkdir_append_does_not (fs : FileSys) (d f : String)
    (data : List (String × SheetData)) (o : Opts) (dfs : List (String × Frame))
    (rep : Report) (now sheetName : String) (ad : AppendData)
    (hd : fs.dirs.contains d = false) :
    ((create_workbook_fs data o fs d f).2
        = "XLSX workbook created successfully: " ++ pathStr d f ∧
      (create_workbook_fs data o fs d f).1.lookupFile d f ≠ none) ∧
    ((create_dataframe_workbook_fs dfs fs d f).2
        = "DataFrame workbook created successfully: " ++ pathStr d f ∧
      (create_dataframe_workbook_fs dfs fs d f).1.lookupFile d f ≠ none) ∧
    (∀ sheets, create_report_sheets rep now = Except.ok sheets →
      (create_report_workbook_fs rep now fs d f).2
          = "Report workbook created successfully: " ++ pathStr d f ∧
      (create_report_workbook_fs rep now fs d f).1.lookupFile d f ≠ none) ∧
    (∀ e, create_report_sheets rep now = Except.error e →
      (create_report_workbook_fs rep now fs d f).2
          = "Error creating report workbook: " ++ e ∧
      (create_report_workbook_fs rep now fs d f).1.lookupFile d f
          = fs.lookupFile d f) ∧
    ((append_to_workbook_fs fs d f sheetName ad).2
        = "Error appending to workbook: No such file or directory" ∧
      (append_to_workbook_fs fs d f sheetName ad).1 = fs) := by
  have hnotin : ¬ (fs.dirs.contains d = true) := by
    rw [hd]
    exact Bool.false_ne_true
  have hmk : mkdirParents fs d = ⟨d :: fs.dirs, fs.files⟩ := by
    rw [mkdirParents, if_neg hnotin]
  have hsave : ∀ wb, saveWorkbook ⟨d :: fs.dirs, fs.files⟩ d f wb
      = Except.ok ⟨d :: fs.dirs, ((d, f), wb) :: fs.files⟩ := by
    intro wb
    rw [saveWorkbook, if_pos]
    simp [List.contains_cons]
  have hlook : ∀ wb rest, FileSys.lookupFile ⟨d :: fs.dirs, ((d, f), wb) :: rest⟩ d f
      = some wb := by
    intro wb rest
    simp [FileSys.lookupFile, List.find?]
  have hsavefail : ∀ wb, saveWorkbook fs d f wb
      = Except.error "No such file or directory" := by
    intro wb
    rw [saveWorkbook, if_neg hnotin]
  refine ⟨⟨?_, ?_⟩, ⟨?_, ?_⟩, ?_, ?_, ⟨?_, ?_⟩⟩
  · rw [create_workbook_fs]
    simp only [hmk, hsave]
  · rw [create_workbook_fs]
    simp only [hmk, hsave]
    simp [hlook]
  · rw [create_dataframe_workbook_fs]
    simp only [hmk, hsave]
  · rw [create_dataframe_workbook_fs]
    simp only [hmk, hsave]
    simp [hlook]
  · intro sheets hok
    rw [create_report_workbook_fs]
    simp only [hmk, hok, hsave]
    simp [hlook]
  · intro e herr
    rw [create_report_workbook_fs]
    simp only [hmk, herr]
    exact ⟨trivial, rfl⟩
  · rw [append_to_workbook_fs]
    simp only [hsavefail]
    decide
  · rw [append_to_workbook_fs]
    simp only [hsavefail]

/-- Witness for C10 on an empty filesystem and destination directory "out":
plain creation succeeds, a well-formed report succeeds, a report with a
scalar section returns the error text, and the append fails. -/
theorem c10_creators_mkdir_append_does_not_witness :
    (create_workbook_fs [] ⟨none⟩ ⟨[], []⟩ "out" "a.xlsx").2
      = "XLSX workbook created successfully: " ++ pathStr "out" "a.xlsx" ∧
    (create_report_workbook_fs ⟨"t", "d", [("Sec", SectionData.dict [("k", "v")])]⟩
        "now" ⟨[], []⟩ "out" "r.xlsx").2
      = "Report workbook created successfully: " ++ pathStr "out" "r.xlsx" ∧
    (create_report_workbook_fs ⟨"t", "d", [("Bad", SectionData.scalar "5")]⟩
        "now" ⟨[], []⟩ "out" "r.xlsx").2
      = "Error creating report workbook: " ++ "'str' object has no attribute 'items'" ∧
    (append_to_workbook_fs ⟨[], []⟩ "out" "a.xlsx" "S" (AppendData.list [])).2
      = "Error appending to workbook: No such file or directory" := by
  refine ⟨?_, ?_, ?_, ?_⟩
  · exact (c10_creators_mkdir_append_does_not ⟨[], []⟩ "out" "a.xlsx" [] ⟨none⟩ []
      ⟨"t", "d", []⟩ "now" "S" (AppendData.list []) (by decide)).1.1
  · exact ((c10_creators_mkdir_append_does_not ⟨[], []⟩ "out" "r.xlsx" [] ⟨none⟩ []
      ⟨"t", "d", [("Sec", SectionData.dict [("k", "v")])]⟩ "now" "S"
      (AppendData.list []) (by decide)).2.2.1 _ rfl).1
  · exact ((c10_creators_mkdir_append_does_not ⟨[], []⟩ "out" "r.xlsx" [] ⟨none⟩ []
      ⟨"t", "d", [("Bad", SectionData.scalar "5")]⟩ "now" "S"
      (AppendData.list []) (by decide)).2.2.2.1 _ rfl).1
  · exact (c10_creators_mkdir_append_does_not ⟨[], []⟩ "out" "a.xlsx" [] ⟨none⟩ []
      ⟨"t", "d", []⟩ "now" "S" (AppendData.list []) (by decide)).2.2.2.2.1

/- ===================== Extractors (src/extractors.py) ===================== -/

/-- The 50-character separator `"=" * 50`. -/
def eq50 : String := String.mk (List.replicate 50 '=')

/-- What `DocumentExtractor._extract_xlsx` reads off one sheet through
pandas: shape, emptiness, column names, the rendered sample table, the
numeric columns with their rendered summary, and the per-column dtype
lines.  These are oracle values of the pandas calls; only the surrounding
control flow is under verification. -/
structure SheetDf where
  nrows : Nat
  ncols : Nat
  isEmpty : Bool
  columns : List String
  sampleStr : String
  numericCols : List String
  summaryStr : String
  dtypeLines : List String
deriving DecidableEq

/-- The text parts one sheet contributes inside `_extract_xlsx`'s per-sheet
try/except: the sheet banner and data on success, the inline
`Error reading sheet '<name>': <message>` line on failure. -/
def sheetBlock (name : String) : Except String SheetDf → List String
  | .error msg => ["Error reading sheet '" ++ name ++ "': " ++ msg, ""]
  | .ok df =>
    ["=== Sheet: " ++ name ++ " ===",
     "Dimensions: " ++ toString df.nrows ++ " rows x " ++ toString df.ncols ++ " columns"]
    ++ (if df.isEmpty then ["Sheet is empty"]
        else ["\nColumns:", String.intercalate ", " df.columns,
              "\nSample Data (first 10 rows):", df.sampleStr]
          ++ (if 0 < df.numericCols.length then ["\nNumeric Summary:", df.summaryStr] else [])
          ++ ["\nData Types:"] ++ df.dtypeLines)
    ++ ["\n" ++ eq50, ""]

/-- The `for sheet_name in workbook.sheetnames` loop: each sheet appends
its parts to the accumulated text_parts and the loop continues. -/
def xlsxSheetsLoop (acc : List String) : List (String × Except String SheetDf) → List String
  | [] => acc
  | (name, res) :: rest => xlsxSheetsLoop (acc ++ sheetBlock name res) rest

/-- The text_parts of `_extract_xlsx`: workbook header then the sheet loop. -/
def extract_xlsx_parts (fileName : String)
    (sheets : List (String × Except String SheetDf)) : List String :=
  xlsxSheetsLoop
    ["Excel Workbook: " ++ fileName,
     "Number of sheets: " ++ toString sheets.length, eq50, ""] sheets

/-- `DocumentExtractor._extract_xlsx`: the joined parts, or the no-content
sentinel when only the 4 header lines were produced. -/
def extract_xlsx (fileName : String)
    (sheets : List (String × Except String SheetDf)) : String :=
  if (extract_xlsx_parts fileName sheets).length ≤ 4 then
    "No readable content found in XLSX file"
  else String.intercalate "\n" (extract_xlsx_parts fileName sheets)

theorem xlsxSheetsLoop_eq (acc : List String)
    (sheets : List (String × Except String SheetDf)) :
    xlsxSheetsLoop acc sheets = acc ++ sheets.flatMap (fun p => sheetBlock p.1 p.2) := by
  induction sheets generalizing acc with
  | nil => simp [xlsxSheetsLoop]
  | cons p rest ih =>
    rcases p with ⟨name, res⟩
    rw [xlsxSheetsLoop, ih]
    simp [List.append_assoc]

theorem sheetBlock_two_le_length (name : String) (r : Except String SheetDf) :
    2 ≤ (sheetBlock name r).length := by
  cases r with
  | error msg => simp [sheetBlock]
  | ok df =>
    simp only [sheetBlock, List.length_append, List.length_cons, List.length_nil]
    omega

/-- Claim C5: when reading one sheet raises, `_extract_xlsx` emits the
inline `Error reading sheet '<name>': <message>` line for it, every sheet
of the workbook (before and after) still contributes exactly its own block
in order, and the whole-workbook output is the join of those parts rather
than an abort. -/
theorem c5_sheet_error_is_inline_and_rest_processed (fileName name msg : String)
    (sheets : List (String × Except String SheetDf))
    (h : (name, Except.error msg) ∈ sheets) :
    ("Error reading sheet '" ++ name ++ "': " ++ msg) ∈ extract_xlsx_parts fileName sheets ∧
    extract_xlsx_parts fileName sheets
      = ["Excel Workbook: " ++ fileName,
         "Number of sheets: " ++ toString sheets.length, eq50, ""]
        ++ sheets.flatMap (fun p => sheetBlock p.1 p.2) ∧
    extract_xlsx fileName sheets
      = String.intercalate "\n" (extract_xlsx_parts fileName sheets) := by
  have hstruct : extract_xlsx_parts fileName sheets
      = ["Excel Workbook: " ++ fileName,
         "Number of sheets: " ++ toString sheets.length, eq50, ""]
        ++ sheets.flatMap (fun p => sheetBlock p.1 p.2) :=
    xlsxSheetsLoop_eq _ sheets
  refine ⟨?_, hstruct, ?_⟩
  · rw [hstruct]
    apply List.mem_append_right
    apply List.mem_flatMap.mpr
    refine ⟨(name, Except.error msg), h, ?_⟩
    simp [sheetBlock]
  · have hlong : 4 < (extract_xlsx_parts fileName sheets).length := by
      rw [hstruct]
      rcases List.append_of_mem h with ⟨l1, l2, rfl⟩
      have hb := sheetBlock_two_le_length name (Except.error msg)
      simp only [List.length_append, List.length_cons, List.length_nil, List.flatMap_append,
        List.flatMap_cons]
      omega
    rw [extract_xlsx, if_neg (by omega)]

/-- Witness for C5: a workbook whose single sheet errors still reports the
inline error line. -/
theorem c5_sheet_error_witness :
    ("Error reading sheet '" ++ "Bad" ++ "': " ++ "boom")
      ∈ extract_xlsx_parts "wb.xlsx" [("Bad", Except.error "boom")] := by
  exact (c5_sheet_error_is_inline_and_rest_processed "wb.xlsx" "Bad" "boom"
    [("Bad", Except.error "boom")] (by simp)).1

/- ------------- extract_from_file ------------- -/

/-- `DocumentExtractor.SUPPORTED_EXTENSIONS`'s keys, lowercase and
dot-prefixed. -/
def SUPPORTED_EXTENSIONS : List (List Char) :=
  [chars ".pdf", chars ".docx", chars ".pptx", chars ".xlsx"]

/-- `", ".join(self.SUPPORTED_EXTENSIONS.keys())`. -/
def supportedJoined : List Char := chars ".pdf, .docx, .pptx, .xlsx"

/-- The filesystem facts `extract_from_file` consults about its path:
`path.exists()`, `path.is_file()` and `path.suffix.lower()`. -/
structure PathInfo where
  path_exists : Bool
  is_file : Bool
  suffix_lower : List Char

/-- `DocumentExtractor.extract_from_file`.  `readers` stands for the four
format readers the method dispatches to; a reader that raises is an
`Except.error`, which the method's outer try/except converts to the
`Error processing <path>: <message>` text — the function is total, so no
exception ever reaches the caller. -/
def extract_from_file (p : List Char) (info : PathInfo)
    (readers : List Char → Except (List Char) (List Char)) : List Char :=
  if !info.path_exists then chars "Error: File not found - " ++ p
  else if !info.is_file then chars "Error: Path is not a file - " ++ p
  else if !(SUPPORTED_EXTENSIONS.contains info.suffix_lower) then
    chars "Error: Unsupported file type - " ++ info.suffix_lower
      ++ chars ". Supported: " ++ supportedJoined
  else
    match readers info.suffix_lower with
    | .ok t => t
    | .error e => chars "Error processing " ++ p ++ chars ": " ++ e

theorem isPrefixOf_append_ext (n l b : List Char) (h : n.isPrefixOf l = true) :
    n.isPrefixOf (l ++ b) = true := by
  induction n generalizing l with
  | nil => exact List.isPrefixOf_nil_left
  | cons x n ih =>
    cases l with
    | nil => cases h
    | cons y l =>
      rw [List.cons_append]
      rw [List.isPrefixOf] at h ⊢
      rcases Bool.and_eq_true_iff.mp h with ⟨h1, h2⟩
      rw [h1, ih l h2]
      rfl

theorem containsSeq_append_left (n a b : List Char) (h : containsSeq n a = true) :
    containsSeq n (a ++ b) = true := by
  induction a with
  | nil =>
    rw [containsSeq] at h
    have : n = [] := by
      cases n with
      | nil => rfl
      | cons x xs => cases h
    subst this
    cases b with
    | nil => rfl
    | cons y ys =>
      rw [List.nil_append, containsSeq]
      rfl
  | cons x xs ih =>
    rw [List.cons_append, containsSeq]
    rw [containsSeq] at h
    rcases Bool.or_eq_true_iff.mp h with h1 | h1
    · rw [← List.cons_append, isPrefixOf_append_ext n (x :: xs) b h1]
      rfl
    · rw [ih h1, Bool.or_true]

/-- Claim C6: `extract_from_file` is total (never propagates an exception):
a missing path yields a text containing `not found`, a non-file path yields
the `Error: Path is not a file - <path>` text, and a reader exception is
converted to `Error processing <path>: <message>`. -/
theorem c6_extract_from_file_never_raises (p : List Char) (info : PathInfo)
    (readers : List Char → Except (List Char) (List Char)) :
    (info.path_exists = false →
        containsSeq (chars "not found") (extract_from_file p info readers) = true) ∧
    (info.path_exists = true → info.is_file = false →
        extract_from_file p info readers = chars "Error: Path is not a file - " ++ p) ∧
    (∀ e, info.path_exists = true → info.is_file = true →
        SUPPORTED_EXTENSIONS.contains info.suffix_lower = true →
        readers info.suffix_lower = Except.error e →
        extract_from_file p info readers
          = chars "Error processing " ++ p ++ chars ": " ++ e) := by
  refine ⟨?_, ?_, ?_⟩
  · intro h
    rw [extract_from_file, if_pos (by rw [h]; rfl)]
    exact containsSeq_append_left _ _ p (by decide)
  · intro h1 h2
    rw [extract_from_file, if_neg (by rw [h1]; exact Bool.false_ne_true),
      if_pos (by rw [h2]; rfl)]
  · intro e h1 h2 h3 h4
    rw [extract_from_file, if_neg (by rw [h1]; exact Bool.false_ne_true),
      if_neg (by rw [h2]; exact Bool.false_ne_true),
      if_neg (by rw [h3]; exact Bool.false_ne_true), h4]

/-- Witness for C6 at concrete paths: a missing path and a raising reader. -/
theorem c6_extract_from_file_never_raises_witness :
    containsSeq (chars "not found")
      (extract_from_file (chars "/tmp/x.docx") ⟨false, false, chars ".docx"⟩
        (fun _ => Except.error (chars "boom"))) = true ∧
    extract_from_file (chars "/tmp/x.docx") ⟨true, true, chars ".docx"⟩
        (fun _ => Except.error (chars "boom"))
      = chars "Error processing " ++ chars "/tmp/x.docx" ++ chars ": " ++ chars "boom" := by
  constructor
  · exact (c6_extract_from_file_never_raises (chars "/tmp/x.docx")
      ⟨false, false, chars ".docx"⟩ (fun _ => Except.error (chars "boom"))).1 rfl
  · exact (c6_extract_from_file_never_raises (chars "/tmp/x.docx")
      ⟨true, true, chars ".docx"⟩ (fun _ => Except.error (chars "boom"))).2.2
      (chars "boom") rfl rfl (by decide) rfl

/- ------------- _extract_pptx ------------- -/

/-- One shape of a slide: `some t` when the shape has a `text` attribute
with content `t`, `none` otherwise. -/
def shapeText (sh : Option String) : Option String :=
  match sh with
  | some t => if (pystrip t.data).isEmpty then none else some t
  | none => none

/-- The non-blank shape texts of a slide, in shape order (the
`if hasattr(shape, "text") and shape.text.strip()` filter). -/
def slideBody (sl : List (Option String)) : List String :=
  sl.filterMap shapeText

def slideMarker (n : Nat) : String := "--- Slide " ++ toString n ++ " ---"

/-- The `for slide_num, slide in enumerate(prs.slides, 1)` loop of
`_extract_pptx`: build `slide_text` as the marker plus the non-blank shape
texts, and extend text_parts (plus a blank separator) only when
`len(slide_text) > 1`. -/
def pptxLoop (n : Nat) : List (List (Option String)) → List String
  | [] => []
  | sl :: rest =>
    (if 1 < (slideMarker n :: slideBody sl).length
      then (slideMarker n :: slideBody sl) ++ [""] else [])
    ++ pptxLoop (n + 1) rest

def extract_pptx_parts (slides : List (List (Option String))) : List String :=
  pptxLoop 1 slides

/-- `DocumentExtractor._extract_pptx`. -/
def extract_pptx (slides : List (List (Option String))) : String :=
  if (extract_pptx_parts slides).isEmpty then "No text content found in PPTX"
  else String.intercalate "\n" (extract_pptx_parts slides)

/-- Modelled from the spec: the output unit of one slide — its 1-based
`--- Slide N ---` marker plus its non-blank shape texts and a trailing
blank, emitted as a whole only when the body is nonempty; a slide with no
contributing shape yields nothing, not even its marker. -/
def slideUnit (n : Nat) (sl : List (Option String)) : List String :=
  if slideBody sl = [] then []
  else slideMarker n :: (slideBody sl ++ [""])

theorem pptxLoop_eq_units (n : Nat) (slides : List (List (Option String))) :
    pptxLoop n slides = (List.enumFrom n slides).flatMap (fun p => slideUnit p.1 p.2) := by
  induction slides generalizing n with
  | nil => rfl
  | cons sl rest ih =>
    rw [pptxLoop, List.enumFrom, List.flatMap_cons, ih (n + 1), slideUnit]
    cases hb : slideBody sl with
    | nil => simp [hb]
    | cons t ts =>
      rw [if_pos (show 1 < (slideMarker n :: t :: ts).length by simp)]
      rw [if_neg (show ¬ (t :: ts = ([] : List String)) by simp)]
      simp

/-- Claim C7: `_extract_pptx` emits the slides in order with 1-based
markers, each slide's unit being its marker followed by every non-blank
shape text; a slide with no non-blank shape text is dropped entirely
(its marker never appears), and the final output is the join of the
remaining units (or the no-content sentinel when every slide dropped). -/
theorem c7_pptx_slides_in_order_empty_dropped (slides : List (List (Option String))) :
    extract_pptx_parts slides
      = (List.enumFrom 1 slides).flatMap (fun p => slideUnit p.1 p.2) ∧
    (∀ n sl, slideBody sl = [] → slideUnit n sl = []) ∧
    (∀ n sl, slideBody sl ≠ [] →
        slideUnit n sl = slideMarker n :: (slideBody sl ++ [""])) ∧
    extract_pptx slides
      = (if extract_pptx_parts slides = [] then "No text content found in PPTX"
          else String.intercalate "\n" (extract_pptx_parts slides)) := by
  refine ⟨pptxLoop_eq_units 1 slides, ?_, ?_, ?_⟩
  · intro n sl h
    rw [slideUnit, if_pos h]
  · intro n sl h
    rw [slideUnit, if_neg h]
  · rw [extract_pptx]
    rcases hp : extract_pptx_parts slides with _ | ⟨x, xs⟩
    · rw [if_pos rfl, if_pos (by rfl)]
    · rw [if_neg (by simp), if_neg (by simp)]

/-- Witness for C7: a two-slide deck whose first slide has only a blank
shape keeps only slide 2's unit. -/
theorem c7_pptx_witness :
    extract_pptx_parts [[some "  "], [some "Hello"]]
      = ["--- Slide 2 ---", "Hello", ""] ∧
    slideUnit 1 [some "  "] = [] := by
  constructor
  · exact ((c7_pptx_slides_in_order_empty_dropped [[some "  "], [some "Hello"]]).1).trans
      (by decide)
  · exact (c7_pptx_slides_in_order_empty_dropped []).2.1 1 [some "  "] (by decide)

/- ===================== Word writer (src/docx_writer.py) ===================== -/

/-- Python `content.split('\n')`. -/
def splitChar (c : Char) : List Char → List (List Char)
  | [] => [[]]
  | x :: xs =>
    match splitChar c xs with
    | [] => [[]]
    | h :: t => if x = c then [] :: h :: t else (x :: h) :: t

/-- Python `text.split("**")` (leftmost-first, non-overlapping). -/
def splitStarStar : List Char → List (List Char)
  | [] => [[]]
  | '*' :: '*' :: rest => [] :: splitStarStar rest
  | x :: rest =>
    match splitStarStar rest with
    | [] => [[x]]
    | h :: t => (x :: h) :: t

/-- `line.replace('=', '').strip()`. -/
def stripEq (l : List Char) : List Char :=
  pystrip (l.filter (fun c => !(c = '=')))

/-- `line.replace('-', '').replace('#', '').strip()`. -/
def stripDashHash (l : List Char) : List Char :=
  pystrip ((l.filter (fun c => !(c = '-'))).filter (fun c => !(c = '#')))

/-- What `DocxWriter._add_content` decides to do with one raw line, per its
top-to-bottom rule chain (first match wins). -/
inductive LineAction where
  | blank
  | consumed
  | heading (level : Nat) (t : List Char)
  | bullet (t : List Char)
  | numbered (t : List Char)
  | paraLine (l : List Char)
deriving DecidableEq

/-- The rule chain of `_add_content` for one line: blank; `===...===`
heading 2; `--`/`##` heading 3; `•`/`-`/`*` bullet; `<digit>.` numbered;
otherwise paragraph text.  Marker rules whose remaining text is empty
consume the line without adding anything (`consumed`). -/
def lineAction (raw : List Char) : LineAction :=
  let l := pystrip raw
  if l.isEmpty then .blank
  else if (chars "===").isPrefixOf l && (chars "===").isSuffixOf l then
    (if (stripEq l).isEmpty then .consumed else .heading 2 (stripEq l))
  else if (chars "--").isPrefixOf l || (chars "##").isPrefixOf l then
    (if (stripDashHash l).isEmpty then .consumed else .heading 3 (stripDashHash l))
  else if (l.head? == some '•') || (l.head? == some '-') || (l.head? == some '*') then
    (if (pystrip (l.drop 1)).isEmpty then .consumed else .bullet (pystrip (l.drop 1)))
  else if (match l with
            | c1 :: c2 :: _ :: _ => c1.isDigit && (c2 == '.')
            | _ => false) then
    (if (pystrip (l.drop 2)).isEmpty then .consumed else .numbered (pystrip (l.drop 2)))
  else .paraLine l

/-- One inline run of a paragraph. -/
structure Run where
  text : List Char
  bold : Bool
deriving DecidableEq

inductive ParaKind where
  | normal
  | heading (level : Nat)
  | listBullet
  | listNumber
deriving DecidableEq

/-- One python-docx paragraph: its style kind and its runs. -/
structure Para where
  kind : ParaKind
  runs : List Run
deriving DecidableEq

/-- python-docx `paragraph.text`: the concatenated run texts. -/
def Para.text (p : Para) : List Char := (p.runs.map Run.text).flatten

/-- `DocxWriter._add_formatted_text`: split on `**`, skip empty segments,
odd-indexed segments bold. -/
def formattedRuns (l : List Char) : List Run :=
  ((splitStarStar l).enum).filterMap (fun p =>
    if p.2.isEmpty then none else some ⟨p.2, decide (p.1 % 2 = 1)⟩)

/-- The run(s) a paragraph line contributes: `_add_formatted_text` when the
line contains `**`, else one plain run of the line plus a trailing space. -/
def paraLineRuns (l : List Char) : List Run :=
  if containsSeq (chars "**") l then formattedRuns l else [⟨l ++ [' '], false⟩]

/-- The builder state while `_add_content` walks the lines: the paragraphs
created so far (most recent first) and whether `current_paragraph` is set
(it is always the most recently created paragraph when set). -/
structure DocState where
  rev : List Para
  openPara : Bool

/-- One loop iteration of `_add_content`. -/
def stepLine (st : DocState) (raw : List Char) : DocState :=
  match lineAction raw with
  | .blank => ⟨st.rev, false⟩
  | .consumed => ⟨st.rev, false⟩
  | .heading lvl t => ⟨⟨ParaKind.heading lvl, [⟨t, true⟩]⟩ :: st.rev, false⟩
  | .bullet t => ⟨⟨ParaKind.listBullet, [⟨t, false⟩]⟩ :: st.rev, false⟩
  | .numbered t => ⟨⟨ParaKind.listNumber, [⟨t, false⟩]⟩ :: st.rev, false⟩
  | .paraLine l =>
    if st.openPara then
      match st.rev with
      | p :: rest => ⟨⟨p.kind, p.runs ++ paraLineRuns l⟩ :: rest, true⟩
      | [] => ⟨[⟨ParaKind.normal, paraLineRuns l⟩], true⟩
    else ⟨⟨ParaKind.normal, paraLineRuns l⟩ :: st.rev, true⟩

/-- `DocxWriter.create_document`: optional centered level-1 title heading,
then the parsed content paragraphs in document order. -/
def create_document (content : List Char) (title : Option (List Char)) : List Para :=
  let initial : DocState :=
    ⟨(match title with
      | some t => [⟨ParaKind.heading 1, [⟨t, true⟩]⟩]
      | none => []), false⟩
  ((splitChar '\n' content).foldl stepLine initial).rev.reverse

/-- `DocumentExtractor._extract_docx`: every non-blank paragraph text in
order, then one ` | `-joined line per table row with non-blank cells,
joined by newlines; the no-content sentinel when nothing qualifies. -/
def extract_docx (paras : List Para) (tables : List (List (List (List Char)))) :
    List Char :=
  let parts := paras.filterMap
    (fun p => if (pystrip p.text).isEmpty then none else some p.text)
  let tparts := tables.flatMap (fun t => t.filterMap (fun row =>
      let cs := row.filterMap
        (fun cell => if (pystrip cell).isEmpty then none else some (pystrip cell))
      if cs.isEmpty then none else some (List.intercalate (chars " | ") cs)))
  if (parts ++ tparts).isEmpty then chars "No text content found in DOCX"
  else List.intercalate (chars "\n") (parts ++ tparts)

theorem startsDashDash (l : List Char) (h : (chars "--").isPrefixOf l = true) :
    ∃ rest, l = '-' :: '-' :: rest := by
  rw [show chars "--" = ['-', '-'] from rfl] at h
  cases l with
  | nil => cases h
  | cons x l1 =>
    cases l1 with
    | nil =>
      rw [List.isPrefixOf_cons₂, List.isPrefixOf_cons_nil] at h
      simp at h
    | cons y l2 =>
      rw [List.isPrefixOf_cons₂, List.isPrefixOf_cons₂, List.isPrefixOf_nil_left] at h
      have h' := h
      rcases Bool.and_eq_true_iff.mp h' with ⟨hx, hy'⟩
      rcases Bool.and_eq_true_iff.mp hy' with ⟨hy, -⟩
      rw [beq_iff_eq] at hx hy
      exact ⟨l2, by rw [← hx, ← hy]⟩

/-- Claim C8: in `_add_content`'s rule chain, a line whose stripped form
starts with `--` and still has text after stripping `-`, `#` and
whitespace becomes a level-3 heading and never an unordered list item
(the heading rule fires before the bullet rule), while a line starting
with a single `-` (not `--`) followed by text becomes an unordered list
item whose text is the remainder after the marker, trimmed. -/
theorem c8_dash_heading_beats_bullet (raw : List Char) :
    ((chars "--").isPrefixOf (pystrip raw) = true →
      stripDashHash (pystrip raw) ≠ [] →
        lineAction raw = LineAction.heading 3 (stripDashHash (pystrip raw)) ∧
        ∀ t, lineAction raw ≠ LineAction.bullet t) ∧
    (∀ rest, pystrip raw = '-' :: rest →
      rest.head? ≠ some '-' →
      pystrip rest ≠ [] →
        lineAction raw = LineAction.bullet (pystrip rest)) := by
  constructor
  · intro hp hne
    rcases startsDashDash (pystrip raw) hp with ⟨rest, hl⟩
    have h1 : (pystrip raw).isEmpty = false := by
      rw [hl]
      rfl
    have h2 : ((chars "===").isPrefixOf (pystrip raw)
        && (chars "===").isSuffixOf (pystrip raw)) = false := by
      rw [hl]
      rfl
    have h4 : (stripDashHash (pystrip raw)).isEmpty = false := by
      cases hsd : stripDashHash (pystrip raw) with
      | nil => exact absurd hsd hne
      | cons a b => rfl
    have heq : lineAction raw = LineAction.heading 3 (stripDashHash (pystrip raw)) := by
      rw [lineAction]
      simp only [h1, h2, hp, h4, Bool.true_or, Bool.false_eq_true, if_false, if_true]
    refine ⟨heq, fun t h => ?_⟩
    rw [heq] at h
    simp at h
  · intro rest hl hh hpr
    have h1 : (pystrip raw).isEmpty = false := by
      rw [hl]
      rfl
    have h2 : ((chars "===").isPrefixOf (pystrip raw)
        && (chars "===").isSuffixOf (pystrip raw)) = false := by
      rw [hl]
      rfl
    have h3 : ((chars "--").isPrefixOf (pystrip raw)
        || (chars "##").isPrefixOf (pystrip raw)) = false := by
      rw [hl]
      cases rest with
      | nil => rfl
      | cons y rs =>
        have hy : ('-' == y) = false := by
          apply beq_eq_false_iff_ne.mpr
          intro he
          exact hh (congrArg some he.symm)
        show ((('-' == '-') && (('-' == y) && List.isPrefixOf [] rs))
          || (('#' == '-') && List.isPrefixOf ['#'] (y :: rs))) = false
        rw [hy]
        rfl
    have h5 : ((pystrip raw).head? == some '•') = false := by
      rw [hl]
      rfl
    have h6 : ((pystrip raw).head? == some '-') = true := by
      rw [hl]
      rfl
    have h7 : (pystrip ((pystrip raw).drop 1)).isEmpty = false := by
      rw [hl]
      show (pystrip rest).isEmpty = false
      cases hsd : pystrip rest with
      | nil => exact absurd hsd hpr
      | cons a b => rfl
    have hdrop : pystrip ((pystrip raw).drop 1) = pystrip rest := by
      rw [hl]
      rfl
    rw [hdrop] at h7
    rw [lineAction]
    simp only [h1, h2, h3, h5, h6, hdrop, h7, Bool.false_or, Bool.true_or,
      Bool.false_eq_true, if_false, if_true]

/-- Witness for C8 on concrete lines: `-- Head` is a level-3 heading,
`- item` is a bullet with text `item`. -/
theorem c8_dash_heading_beats_bullet_witness :
    lineAction (chars "-- Head") = LineAction.heading 3 (chars "Head") ∧
    lineAction (chars "- item") = LineAction.bullet (chars "item") := by
  constructor
  · exact (((c8_dash_heading_beats_bullet (chars "-- Head")).1
      (by decide) (by decide)).1).trans (by decide)
  · exact ((c8_dash_heading_beats_bullet (chars "- item")).2
      (chars " item") (by decide) (by decide) (by decide)).trans (by decide)

/-- Claim C9 (counterexample): the fourth markup line `**bold** plain`
starts with `*`, so `_add_content`'s bullet rule consumes it before the
`**` bold handling is ever reached; the re-extracted text therefore does
NOT contain the concatenation `bold plain`. -/
theorem c9_bold_line_consumed_by_bullet_rule :
    containsSeq (chars "bold plain")
      (extract_docx (create_document
        (chars "=== Title ===\n- item one\n- item two\n**bold** plain") none) [])
      = false := by
  decide

/-- Claim C9 (amended): the round-trip of the markup
`"=== Title ===\n- item one\n- item two\n**bold** plain"` through
create_document and the word-processor reader yields a text containing
`Title`, `item one`, `item two` and the bullet text `*bold** plain` —
the `**` line is consumed by the bullet rule (its first `*` is the list
marker), not rendered as bold spans. -/
theorem c9_roundtrip_amended :
    containsSeq (chars "Title")
      (extract_docx (create_document
        (chars "=== Title ===\n- item one\n- item two\n**bold** plain") none) [])
      = true ∧
    containsSeq (chars "item one")
      (extract_docx (create_document
        (chars "=== Title ===\n- item one\n- item two\n**bold** plain") none) [])
      = true ∧
    containsSeq (chars "item two")
      (extract_docx (create_document
        (chars "=== Title ===\n- item one\n- item two\n**bold** plain") none) [])
      = true ∧
    containsSeq (chars "*bold** plain")
      (extract_docx (create_document
        (chars "=== Title ===\n- item one\n- item two\n**bold** plain") none) [])
      = true := by
  decide
